import Mathlib

/-!
Verification of the dma-buf buffer-sharing core from drivers/base/dma-buf.c
(Linux 3.4, Exynos 3250 tree).

The development is a shallow embedding: each C function becomes a Lean
function on an explicit state.  Pointers are modelled as natural numbers with
0 standing for NULL; exporter hooks are modelled by recording their presence
and, where a claim needs their outcome, by a parameter carrying the result
the hook would produce.  `BUG_ON` is modelled by a distinguished failure
constructor, and the number of exporter-hook invocations a call performs is
part of each function's result so that exactly-once properties can be stated.

The dmabuf-sync module (drivers/dmabuf-sync.c) is not among the source files;
only its call sites are.  Definitions for its behaviour carry a doc comment
starting with `Modelled from the spec:` and follow the specification text.
-/

namespace DmabufModel

/-- Linux errno values (include/asm-generic/errno-base.h, errno.h). -/
def EPERM : Int := 1

def ENOMEM : Int := 12

def EFAULT : Int := 14

def EBUSY : Int := 16

def EINVAL : Int := 22

def EOVERFLOW : Int := 75

/-- PAGE_SHIFT on this ARM platform: pages are 4 KiB. -/
def PAGE_SHIFT : Nat := 12

/-- Modulus of the 32-bit `unsigned long` arithmetic of this ARM platform. -/
def ULONG_MOD : Nat := 2 ^ 32

/-- The exporter operation table `struct dma_buf_ops`.  Hooks whose behaviour
no claim depends on are modelled by their presence alone (`Bool`); the `vmap`
hook also carries the pointer it would return when invoked (`none` standing
for an IS_ERR_OR_NULL result), and the `attach` hook carries the return code
it would produce. -/
structure DmaBufOps where
  map_dma_buf : Bool
  unmap_dma_buf : Bool
  release : Bool
  kmap_atomic : Bool
  kunmap_atomic : Bool
  kmap : Bool
  kunmap : Bool
  mmap : Bool
  vmap : Option (Option Nat)
  vunmap : Bool
  attach : Option Int
  detach : Bool
  begin_cpu_access : Bool
  end_cpu_access : Bool
deriving DecidableEq

/-- The per-buffer reservation object `struct dmabuf_sync_reservation`,
restricted to the fields the dma-buf core reads and writes
(`polled`, `poll_event`, `locked`) plus a count of poll waiters registered
through `poll_wait`. -/
structure Reservation where
  locked : Bool
  polled : Bool
  poll_event : Bool
  waiters : Nat
deriving DecidableEq

/-- One `struct dma_buf_attachment`: back-reference to the buffer (identified
by its exporter-private token) and the attached device. -/
structure Attachment where
  dmabuf_priv : Nat
  dev : Nat
deriving DecidableEq

/-- The shared buffer object `struct dma_buf`.  `file` is the anonymous inode
file backing the buffer (0 = NULL); `sync` is the reservation object (`none`
when sync is unsupported). -/
structure DmaBuf where
  priv : Nat
  ops : DmaBufOps
  size : Nat
  file : Nat
  vmap_ptr : Option Nat
  vmapping_counter : Nat
  sync : Option Reservation
  attachments : List Attachment
deriving DecidableEq

/-- Modelled from the spec: `dmabuf_sync_reservation_init` lives in the
dmabuf-sync module, which is not among the source files.  Spec section 4.4:
`Init(buffer)` sets Unlocked, clears the poll flag and empties the waiter
queue. -/
def dmabuf_sync_reservation_init : Reservation :=
  { locked := false, polled := false, poll_event := false, waiters := 0 }

/-- `dma_buf_export` (dma-buf.c:341-375).  `priv = 0` models a NULL private
pointer and `ops = none` a NULL operation table; `allocOk` is the outcome of
`kzalloc` and `fileId` the anonymous file `anon_inode_getfile` produces.  The
error paths return before `kzalloc`, so nothing is allocated on them. -/
def dma_buf_export (priv : Nat) (ops : Option DmaBufOps) (size : Nat)
    (flags : Nat) (allocOk : Bool) (fileId : Nat) : Except Int DmaBuf :=
  match ops with
  | none => .error (-EINVAL)
  | some o =>
    if priv = 0 || !o.map_dma_buf || !o.unmap_dma_buf || !o.release
        || !o.kmap_atomic || !o.kmap || !o.mmap then
      .error (-EINVAL)
    else if !allocOk then
      .error (-ENOMEM)
    else
      .ok { priv := priv, ops := o, size := size, file := fileId,
            vmap_ptr := none, vmapping_counter := 0,
            sync := some dmabuf_sync_reservation_init,
            attachments := [] }

/-- Claim C1: `Export` fails with InvalidArgument when the exporter-private
pointer is NULL, the operation table is NULL, or any of the six mandatory
hooks {map, unmap, release, kmapAtomic, kmap, mmap} is missing (all these
paths return before any allocation); it fails with OutOfMemory when the
buffer allocation fails; on success the returned buffer holds the given
private pointer, operation table and size, has zero attachments, no vmap
cache, and its reservation state is initialized to unlocked. -/
theorem dma_buf_export_correct (priv size flags fileId : Nat) (o : DmaBufOps)
    (allocOk : Bool) :
    (dma_buf_export priv none size flags allocOk fileId = .error (-EINVAL))
    ∧ ((priv = 0 ∨ o.map_dma_buf = false ∨ o.unmap_dma_buf = false
          ∨ o.release = false ∨ o.kmap_atomic = false ∨ o.kmap = false
          ∨ o.mmap = false) →
        dma_buf_export priv (some o) size flags allocOk fileId
          = .error (-EINVAL))
    ∧ (priv ≠ 0 → o.map_dma_buf = true → o.unmap_dma_buf = true →
        o.release = true → o.kmap_atomic = true → o.kmap = true →
        o.mmap = true →
        (dma_buf_export priv (some o) size flags false fileId
            = .error (-ENOMEM))
        ∧ (dma_buf_export priv (some o) size flags true fileId
            = .ok { priv := priv, ops := o, size := size, file := fileId,
                    vmap_ptr := none, vmapping_counter := 0,
                    sync := some dmabuf_sync_reservation_init,
                    attachments := [] }))
    ∧ dmabuf_sync_reservation_init.locked = false := by
  refine ⟨rfl, ?_, ?_, rfl⟩
  · intro h
    rcases h with h | h | h | h | h | h | h <;>
      simp [dma_buf_export, h]
  · intro h1 h2 h3 h4 h5 h6 h7
    constructor <;> simp [dma_buf_export, h1, h2, h3, h4, h5, h6, h7]

/-- An operation table with every hook present, used to instantiate
hypotheses of the universally quantified theorems at a concrete input. -/
def fullOps : DmaBufOps :=
  { map_dma_buf := true, unmap_dma_buf := true, release := true,
    kmap_atomic := true, kunmap_atomic := true, kmap := true, kunmap := true,
    mmap := true, vmap := some (some 77), vunmap := true, attach := some 0,
    detach := true, begin_cpu_access := true, end_cpu_access := true }

/-- Witness for C1: the characterization applied at a concrete input. -/
theorem dma_buf_export_correct_witness :
    dma_buf_export 5 (some fullOps) 4096 0 true 9
      = .ok { priv := 5, ops := fullOps, size := 4096, file := 9,
              vmap_ptr := none, vmapping_counter := 0,
              sync := some dmabuf_sync_reservation_init,
              attachments := [] } :=
  ((dma_buf_export_correct 5 4096 0 9 fullOps true).2.2.1
    (by decide) rfl rfl rfl rfl rfl rfl).2

/-- Result of `dma_buf_vmap`: either a fatal `BUG_ON` (`bug`), or the
returned pointer together with the updated buffer and the number of times
the exporter's vmap hook was invoked during the call. -/
inductive VmapOut where
  | bug
  | ret (ptr : Option Nat) (buf : DmaBuf) (hookCalls : Nat)
deriving DecidableEq

/-- `dma_buf_vmap` (dma-buf.c:732-763).  A missing vmap hook returns NULL at
once; a nonzero `vmapping_counter` bumps the counter and returns the cached
pointer without calling the exporter (`BUG_ON(!dmabuf->vmap_ptr)` on a
missing cache); otherwise the hook runs once and, unless its result is
IS_ERR_OR_NULL, is cached with counter 1. -/
def dma_buf_vmap (buf : DmaBuf) : VmapOut :=
  match buf.ops.vmap with
  | none => .ret none buf 0
  | some hookRes =>
    if buf.vmapping_counter ≠ 0 then
      match buf.vmap_ptr with
      | none => .bug
      | some p =>
        .ret (some p) { buf with vmapping_counter := buf.vmapping_counter + 1 } 0
    else if buf.vmap_ptr ≠ none then
      .bug
    else
      match hookRes with
      | none => .ret none buf 1
      | some p =>
        .ret (some p) { buf with vmap_ptr := some p, vmapping_counter := 1 } 1

/-- Result of `dma_buf_vunmap`: a fatal `BUG_ON`, or the updated buffer with
the number of exporter vunmap-hook invocations. -/
inductive VunmapOut where
  | bug
  | ret (buf : DmaBuf) (hookCalls : Nat)
deriving DecidableEq

/-- `dma_buf_vunmap` (dma-buf.c:769-786).  `BUG_ON` when there is no cached
pointer, the counter is zero, or the argument differs from the cache;
otherwise the counter is decremented and, exactly at zero, the exporter's
vunmap hook (if present) runs and the cache is cleared. -/
def dma_buf_vunmap (buf : DmaBuf) (vaddr : Nat) : VunmapOut :=
  match buf.vmap_ptr with
  | none => .bug
  | some p =>
    if buf.vmapping_counter = 0 then .bug
    else if p ≠ vaddr then .bug
    else if buf.vmapping_counter - 1 = 0 then
      .ret { buf with vmapping_counter := 0, vmap_ptr := none }
        (if buf.ops.vunmap then 1 else 0)
    else
      .ret { buf with vmapping_counter := buf.vmapping_counter - 1 } 0

/-- Claim C3: with a vmap hook present, the first `Vmap` call invokes the
hook exactly once and on success caches its pointer with counter 1; a
subsequent call returns the identical cached pointer and increments the
counter without invoking the hook; a failing hook yields the failure with
nothing cached; without a vmap hook, `Vmap` returns NULL immediately with no
hook call.  Consequently two `Vmap` calls on a fresh buffer return the same
pointer and invoke the hook exactly once overall. -/
theorem dma_buf_vmap_correct (buf : DmaBuf) (p : Nat) (n : Nat) :
    (buf.ops.vmap = none → dma_buf_vmap buf = .ret none buf 0)
    ∧ (buf.ops.vmap = some (some p) → buf.vmapping_counter = 0 →
        buf.vmap_ptr = none →
        dma_buf_vmap buf
          = .ret (some p) { buf with vmap_ptr := some p, vmapping_counter := 1 } 1)
    ∧ (buf.ops.vmap = some none → buf.vmapping_counter = 0 →
        buf.vmap_ptr = none →
        dma_buf_vmap buf = .ret none buf 1)
    ∧ (∀ hr, buf.ops.vmap = some hr → buf.vmapping_counter = n + 1 →
        buf.vmap_ptr = some p →
        dma_buf_vmap buf
          = .ret (some p) { buf with vmapping_counter := n + 2 } 0)
    ∧ (buf.ops.vmap = some (some p) → buf.vmapping_counter = 0 →
        buf.vmap_ptr = none →
        dma_buf_vmap { buf with vmap_ptr := some p, vmapping_counter := 1 }
          = .ret (some p) { buf with vmap_ptr := some p, vmapping_counter := 2 } 0) := by
  refine ⟨?_, ?_, ?_, ?_, ?_⟩
  · intro h; simp [dma_buf_vmap, h]
  · intro h h0 hp; simp [dma_buf_vmap, h, h0, hp]
  · intro h h0 hp; simp [dma_buf_vmap, h, h0, hp]
  · intro hr h hc hp
    simp [dma_buf_vmap, h, hc, hp]
  · intro h h0 hp
    simp [dma_buf_vmap, h]

/-- A concrete exported buffer used by witnesses: full operation table, vmap
hook returning pointer 77. -/
def sampleBuf : DmaBuf :=
  { priv := 5, ops := fullOps, size := 4096, file := 9, vmap_ptr := none,
    vmapping_counter := 0, sync := some dmabuf_sync_reservation_init,
    attachments := [] }

/-- Witness for C3: the characterization applied to a concrete buffer. -/
theorem dma_buf_vmap_correct_witness :
    dma_buf_vmap sampleBuf
      = .ret (some 77)
          { sampleBuf with vmap_ptr := some 77, vmapping_counter := 1 } 1 :=
  (dma_buf_vmap_correct sampleBuf 77 0).2.1 rfl rfl rfl

/-- Claim C4: with a cached pointer `p` and a positive counter, `Vunmap p`
never hits the fatal branch: it decrements the counter and, exactly when the
counter reaches zero, invokes the vunmap hook (when present, once) and
clears the cache; a mismatched pointer or a zero counter is a fatal
invariant violation; and after two `Vmap` calls on a fresh buffer, two
matching `Vunmap` calls invoke the hook exactly once, on the second call
only, returning the buffer to its initial state. -/
theorem dma_buf_vunmap_correct (buf : DmaBuf) (p q n : Nat) :
    (buf.vmap_ptr = some p → buf.vmapping_counter = 1 →
        dma_buf_vunmap buf p
          = .ret { buf with vmapping_counter := 0, vmap_ptr := none }
              (if buf.ops.vunmap then 1 else 0))
    ∧ (buf.vmap_ptr = some p → buf.vmapping_counter = n + 2 →
        dma_buf_vunmap buf p
          = .ret { buf with vmapping_counter := n + 1 } 0)
    ∧ (buf.vmap_ptr = some p → q ≠ p → dma_buf_vunmap buf q = .bug)
    ∧ (buf.vmapping_counter = 0 → dma_buf_vunmap buf p = .bug)
    ∧ (buf.ops.vmap = some (some p) → buf.ops.vunmap = true →
        buf.vmapping_counter = 0 → buf.vmap_ptr = none →
        dma_buf_vmap buf
            = .ret (some p)
                { buf with vmap_ptr := some p, vmapping_counter := 1 } 1
          ∧ dma_buf_vmap { buf with vmap_ptr := some p, vmapping_counter := 1 }
            = .ret (some p)
                { buf with vmap_ptr := some p, vmapping_counter := 2 } 0
          ∧ dma_buf_vunmap
              { buf with vmap_ptr := some p, vmapping_counter := 2 } p
            = .ret { buf with vmap_ptr := some p, vmapping_counter := 1 } 0
          ∧ dma_buf_vunmap
              { buf with vmap_ptr := some p, vmapping_counter := 1 } p
            = .ret buf 1) := by
  refine ⟨?_, ?_, ?_, ?_, ?_⟩
  · intro hp hc; simp [dma_buf_vunmap, hp, hc]
  · intro hp hc; simp [dma_buf_vunmap, hp, hc]
  · intro hp hq
    have hq2 : ¬ p = q := fun h => hq h.symm
    cases hcz : buf.vmapping_counter with
    | zero => simp [dma_buf_vunmap, hp, hcz]
    | succ m => simp [dma_buf_vunmap, hp, hcz, hq2]
  · intro hc
    cases hp : buf.vmap_ptr with
    | none => simp [dma_buf_vunmap, hp]
    | some r => simp [dma_buf_vunmap, hp, hc]
  · intro hv hu hc hp
    refine ⟨?_, ?_, ?_, ?_⟩
    · simp [dma_buf_vmap, hv, hc, hp]
    · simp [dma_buf_vmap, hv]
    · simp [dma_buf_vunmap]
    · cases buf with
      | mk priv ops size file vp vc sync att =>
        simp only at hu hp hc
        simp [dma_buf_vunmap, hu, hp, hc]

/-- Witness for C4: two vmap calls followed by two matching vunmap calls on a
concrete buffer, with the unmap hook firing on the second call only. -/
theorem dma_buf_vunmap_correct_witness :
    dma_buf_vunmap { sampleBuf with vmap_ptr := some 77, vmapping_counter := 2 } 77
        = .ret { sampleBuf with vmap_ptr := some 77, vmapping_counter := 1 } 0
      ∧ dma_buf_vunmap { sampleBuf with vmap_ptr := some 77, vmapping_counter := 1 } 77
        = .ret sampleBuf 1 :=
  ⟨((dma_buf_vunmap_correct sampleBuf 77 0 0).2.2.2.2 rfl rfl rfl rfl).2.2.1,
   ((dma_buf_vunmap_correct sampleBuf 77 0 0).2.2.2.2 rfl rfl rfl rfl).2.2.2⟩

/-- State of the anonymous file backing a buffer: the buffer itself, the
file reference count, and lifecycle instrumentation — how many times the
exporter's release hook has run (`releaseCalls`), whether the reservation
state was torn down (`resvFini`), and whether the object was freed. -/
structure FileState where
  buf : DmaBuf
  refcount : Nat
  releaseCalls : Nat
  resvFini : Bool
  freed : Bool
deriving DecidableEq

/-- `get_file`: one reference acquisition on the buffer's file. -/
def get_file (st : FileState) : FileState :=
  { st with refcount := st.refcount + 1 }

/-- `n` reference acquisitions in a row. -/
def getN : Nat → FileState → FileState
  | 0, st => st
  | n + 1, st => getN n (get_file st)

/-- `dma_buf_release` (dma-buf.c:35-51), the file destructor run when the
last reference goes away: `BUG_ON(dmabuf->vmapping_counter)` (modelled as
`none`), then the exporter's release hook runs, the reservation state is
torn down (`dmabuf_sync_reservation_fini`, modelled from the spec as pure
teardown), and the object is freed. -/
def dma_buf_release (st : FileState) : Option FileState :=
  if st.buf.vmapping_counter ≠ 0 then none
  else some { st with releaseCalls := st.releaseCalls + 1, resvFini := true,
                      freed := true }

/-- `fput`: drops one file reference; the drop to zero runs the file's
release handler, `dma_buf_release`. -/
def fput (st : FileState) : Option FileState :=
  if st.refcount = 1 then
    dma_buf_release { st with refcount := 0 }
  else
    some { st with refcount := st.refcount - 1 }

/-- `dma_buf_put` (dma-buf.c:436-443): `WARN_ON(!dmabuf || !dmabuf->file)`
returns without effect; otherwise `fput` on the buffer's file. -/
def dma_buf_put (st : FileState) : Option FileState :=
  if st.buf.file = 0 then some st
  else fput st

/-- `n` releases in a row, propagating a fatal `BUG_ON`. -/
def putN : Nat → FileState → Option FileState
  | 0, st => some st
  | n + 1, st =>
    match dma_buf_put st with
    | none => none
    | some st2 => putN n st2

/-- Helper: a fresh (pre-acquisition) lifecycle state for a buffer. -/
def freshFile (buf : DmaBuf) : FileState :=
  { buf := buf, refcount := 0, releaseCalls := 0, resvFini := false,
    freed := false }

theorem getN_refcount (n : Nat) (st : FileState) :
    getN n st = { st with refcount := st.refcount + n } := by
  induction n generalizing st with
  | zero => simp [getN]
  | succ m ih =>
    rw [getN, ih]
    simp [get_file]
    omega

theorem putN_run (n : Nat) (buf : DmaBuf) (r f : Bool) (hf : buf.file ≠ 0) :
    putN (n + 1)
        { buf := buf, refcount := n + 1, releaseCalls := 0, resvFini := r,
          freed := f }
      = dma_buf_release
          { buf := buf, refcount := 0, releaseCalls := 0, resvFini := r,
            freed := f } := by
  induction n with
  | zero =>
    simp [putN, dma_buf_put, hf, fput]
    cases dma_buf_release
        { buf := buf, refcount := 0, releaseCalls := 0, resvFini := r,
          freed := f } <;> rfl
  | succ m ih =>
    rw [putN]
    simp [dma_buf_put, hf, fput]
    exact ih

/-- Claim C2: for every `N ≥ 1`, `N` acquisitions followed by `N` releases
destroy the buffer exactly once — the exporter's release hook runs exactly
once, the reservation state is torn down and the object freed — provided no
kernel vmap is outstanding; releasing the last reference while the vmap
cache counter is nonzero is a fatal invariant violation (`BUG_ON`). -/
theorem dma_buf_refcount_roundtrip (n : Nat) (buf : DmaBuf)
    (hn : 1 ≤ n) (hf : buf.file ≠ 0) :
    (buf.vmapping_counter = 0 →
      putN n (getN n (freshFile buf))
        = some { buf := buf, refcount := 0, releaseCalls := 1,
                 resvFini := true, freed := true })
    ∧ (buf.vmapping_counter ≠ 0 →
      putN n (getN n (freshFile buf)) = none) := by
  obtain ⟨m, rfl⟩ : ∃ m, n = m + 1 := ⟨n - 1, by omega⟩
  rw [getN_refcount]
  simp [freshFile]
  rw [putN_run m buf false false hf]
  constructor
  · intro h0; simp [dma_buf_release, h0]
  · intro h0; simp [dma_buf_release, h0]

/-- Witness for C2: three acquisitions and three releases of a concrete
buffer free it exactly once. -/
theorem dma_buf_refcount_roundtrip_witness :
    putN 3 (getN 3 (freshFile sampleBuf))
      = some { buf := sampleBuf, refcount := 0, releaseCalls := 1,
               resvFini := true, freed := true } :=
  (dma_buf_refcount_roundtrip 3 sampleBuf (by decide) (by decide)).1 rfl

/-- A memory region descriptor `struct vm_area_struct`, restricted to the
fields `dma_buf_mmap` touches.  `vm_file` is the backing file (0-free
`Option`: `none` = no file bound). -/
structure VmArea where
  vm_start : Nat
  vm_end : Nat
  vm_pgoff : Nat
  vm_file : Option Nat
deriving DecidableEq

/-- Outcome of `dma_buf_mmap`: an error code, or delegation to the
exporter's mmap hook. -/
inductive MmapRes where
  | err (code : Int)
  | delegate
deriving DecidableEq

/-- `dma_buf_mmap` (dma-buf.c:695-721).  All `unsigned long` arithmetic is
32-bit on this platform, hence the `% ULONG_MOD` on the page-offset sum.
The result is paired with the region after the call: unchanged on every
error path, rebound to the buffer's file with the new page offset before the
exporter's mmap hook runs on success. -/
def dma_buf_mmap (buf : Option DmaBuf) (vma : Option VmArea) (pgoff : Nat) :
    MmapRes × Option VmArea :=
  match buf, vma with
  | none, v => (.err (-EINVAL), v)
  | some _, none => (.err (-EINVAL), none)
  | some b, some v =>
    let npages := (v.vm_end - v.vm_start) / 2 ^ PAGE_SHIFT
    if (pgoff + npages) % ULONG_MOD < pgoff then
      (.err (-EOVERFLOW), some v)
    else if b.size / 2 ^ PAGE_SHIFT < (pgoff + npages) % ULONG_MOD then
      (.err (-EINVAL), some v)
    else
      (.delegate, some { v with vm_file := some b.file, vm_pgoff := pgoff })

/-- Claim C5: writing `npages` for the region's page count, `Mmap` fails
with Overflow exactly when `pgoff + npages` wraps the 32-bit page-offset
arithmetic, and with InvalidArgument when the (non-wrapping) sum exceeds
`size / pageSize`; both failures leave the region untouched; otherwise the
region is rebound to the buffer's file with page offset `pgoff` and the call
delegates to the exporter's mmap hook. -/
theorem dma_buf_mmap_correct (b : DmaBuf) (v : VmArea) (pgoff : Nat)
    (hpg : pgoff < ULONG_MOD)
    (hnp : (v.vm_end - v.vm_start) / 2 ^ PAGE_SHIFT < ULONG_MOD) :
    (ULONG_MOD ≤ pgoff + (v.vm_end - v.vm_start) / 2 ^ PAGE_SHIFT →
      dma_buf_mmap (some b) (some v) pgoff = (.err (-EOVERFLOW), some v))
    ∧ (pgoff + (v.vm_end - v.vm_start) / 2 ^ PAGE_SHIFT < ULONG_MOD →
        b.size / 2 ^ PAGE_SHIFT
            < pgoff + (v.vm_end - v.vm_start) / 2 ^ PAGE_SHIFT →
        dma_buf_mmap (some b) (some v) pgoff = (.err (-EINVAL), some v))
    ∧ (pgoff + (v.vm_end - v.vm_start) / 2 ^ PAGE_SHIFT < ULONG_MOD →
        pgoff + (v.vm_end - v.vm_start) / 2 ^ PAGE_SHIFT
            ≤ b.size / 2 ^ PAGE_SHIFT →
        dma_buf_mmap (some b) (some v) pgoff
          = (.delegate,
             some { v with vm_file := some b.file, vm_pgoff := pgoff })) := by
  simp only [ULONG_MOD, PAGE_SHIFT] at hpg hnp
  refine ⟨?_, ?_, ?_⟩
  · intro hwrap
    simp only [ULONG_MOD, PAGE_SHIFT] at hwrap
    simp only [dma_buf_mmap, ULONG_MOD, PAGE_SHIFT]
    rw [if_pos (by omega)]
  · intro hnowrap hover
    simp only [ULONG_MOD, PAGE_SHIFT] at hnowrap hover
    simp only [dma_buf_mmap, ULONG_MOD, PAGE_SHIFT]
    rw [if_neg (by omega), if_pos (by omega)]
  · intro hnowrap hin
    simp only [ULONG_MOD, PAGE_SHIFT] at hnowrap hin
    simp only [dma_buf_mmap, ULONG_MOD, PAGE_SHIFT]
    rw [if_neg (by omega), if_neg (by omega)]

/-- Witness for C5: a concrete in-bounds mapping request delegates to the
exporter with the region rebound, and a concrete out-of-range request fails
with InvalidArgument leaving the region untouched. -/
theorem dma_buf_mmap_correct_witness :
    dma_buf_mmap (some sampleBuf)
        (some { vm_start := 0, vm_end := 4096, vm_pgoff := 3, vm_file := none }) 0
      = (.delegate,
         some { vm_start := 0, vm_end := 4096, vm_pgoff := 0, vm_file := some 9 })
    ∧ dma_buf_mmap (some sampleBuf)
        (some { vm_start := 0, vm_end := 4096, vm_pgoff := 3, vm_file := none }) 5
      = (.err (-EINVAL),
         some { vm_start := 0, vm_end := 4096, vm_pgoff := 3, vm_file := none }) :=
  ⟨(dma_buf_mmap_correct sampleBuf
      { vm_start := 0, vm_end := 4096, vm_pgoff := 3, vm_file := none } 0
      (by decide) (by decide)).2.2 (by decide) (by decide),
   (dma_buf_mmap_correct sampleBuf
      { vm_start := 0, vm_end := 4096, vm_pgoff := 3, vm_file := none } 5
      (by decide) (by decide)).2.1 (by decide) (by decide)⟩

/-- Readiness value returned by `dma_buf_poll`: `POLLERR`, ready
(`POLLIN | POLLOUT`), or 0 after registering on the wait queue. -/
inductive PollRes where
  | pollErr
  | ready
  | waiting
deriving DecidableEq

/-- `dma_buf_poll` (dma-buf.c:232-276).  A NULL buffer or absent sync state
is `POLLERR`; otherwise `polled` is set, a pending `poll_event` edge is
consumed and reported ready; an unlocked buffer with no pending edge is
`POLLERR`; a locked one registers the caller (`poll_wait`) and reports not
ready. -/
def dma_buf_poll (buf : Option DmaBuf) : PollRes × Option DmaBuf :=
  match buf with
  | none => (.pollErr, none)
  | some b =>
    match b.sync with
    | none => (.pollErr, some b)
    | some r =>
      if r.poll_event then
        (.ready,
         some { b with sync := some { r with polled := true, poll_event := false } })
      else if r.locked = false then
        (.pollErr, some { b with sync := some { r with polled := true } })
      else
        (.waiting,
         some { b with sync := some { r with polled := true, waiters := r.waiters + 1 } })

/-- Modelled from the spec: `dmabuf_sync_single_unlock` lives in the
dmabuf-sync module, which is not among the source files.  Spec section 4.4:
`Unlock` transitions to Unlocked, sets the poll-edge flag and wakes the
queued waiters. -/
def dmabuf_sync_single_unlock (b : DmaBuf) : DmaBuf :=
  match b.sync with
  | none => b
  | some r =>
    { b with sync := some { r with locked := false, poll_event := true, waiters := 0 } }

/-- Claim C6: with sync state present, `Poll` consumes a pending edge and
reports ready; reports an error when the buffer is unlocked with no pending
edge; and otherwise registers the caller on the waiter queue and reports not
ready.  Consequently after a single `Unlock` the first `Poll` reports ready
(clearing the edge) and the next `Poll` no longer does. -/
theorem dma_buf_poll_correct (b : DmaBuf) (r : Reservation)
    (hs : b.sync = some r) :
    (r.poll_event = true →
      dma_buf_poll (some b)
        = (.ready,
           some { b with sync := some { r with polled := true, poll_event := false } }))
    ∧ (r.poll_event = false → r.locked = false →
        dma_buf_poll (some b)
          = (.pollErr, some { b with sync := some { r with polled := true } }))
    ∧ (r.poll_event = false → r.locked = true →
        dma_buf_poll (some b)
          = (.waiting,
             some { b with sync := some { r with polled := true, waiters := r.waiters + 1 } }))
    ∧ (dma_buf_poll (some (dmabuf_sync_single_unlock b))
          = (.ready,
             some { b with sync := some { r with locked := false, polled := true, poll_event := false, waiters := 0 } })
        ∧ dma_buf_poll
            (some { b with sync := some { r with locked := false, polled := true, poll_event := false, waiters := 0 } })
          = (.pollErr,
             some { b with sync := some { r with locked := false, polled := true, poll_event := false, waiters := 0 } })) := by
  refine ⟨?_, ?_, ?_, ?_, ?_⟩
  · intro he; simp [dma_buf_poll, hs, he]
  · intro he hl; simp [dma_buf_poll, hs, he, hl]
  · intro he hl; simp [dma_buf_poll, hs, he, hl]
  · simp [dmabuf_sync_single_unlock, hs, dma_buf_poll]
  · simp [dma_buf_poll]

/-- Witness for C6: polling a concrete just-unlocked buffer reports ready
once and error on the second poll. -/
theorem dma_buf_poll_correct_witness :
    dma_buf_poll (some (dmabuf_sync_single_unlock sampleBuf))
      = (.ready,
         some { sampleBuf with sync := some { locked := false, polled := true, poll_event := false, waiters := 0 } }) :=
  (dma_buf_poll_correct sampleBuf dmabuf_sync_reservation_init rfl).2.2.2.1

/-- `dma_buf_attach` (dma-buf.c:455-488).  `dev = 0` models a NULL device
and `buf = none` a NULL buffer; `allocOk` is the outcome of `kzalloc`.  When
the optional attach hook is present, `b.ops.attach = some ret` carries the
code it returns; a nonzero code frees the fresh record and propagates, and
only then is the record prepended to the attachment list. -/
def dma_buf_attach (buf : Option DmaBuf) (dev : Nat) (allocOk : Bool) :
    Except Int (Attachment × DmaBuf) :=
  match buf with
  | none => .error (-EINVAL)
  | some b =>
    if dev = 0 then .error (-EINVAL)
    else if !allocOk then .error (-ENOMEM)
    else
      let att : Attachment := { dmabuf_priv := b.priv, dev := dev }
      match b.ops.attach with
      | some ret =>
        if ret ≠ 0 then .error ret
        else .ok (att, { b with attachments := att :: b.attachments })
      | none => .ok (att, { b with attachments := att :: b.attachments })

/-- Claim C7: with a non-null buffer and device and a successful record
allocation, a present-and-failing attach hook makes `Attach` propagate the
hook's error with the attachment set untouched (the freed record is not
inserted); when the hook succeeds or is absent, a record referencing the
buffer and the device is inserted into the attachment set and returned. -/
theorem dma_buf_attach_correct (b : DmaBuf) (dev : Nat) (ret : Int)
    (hdev : dev ≠ 0) :
    (b.ops.attach = some ret → ret ≠ 0 →
      dma_buf_attach (some b) dev true = .error ret)
    ∧ (b.ops.attach = some 0 →
        dma_buf_attach (some b) dev true
          = .ok ({ dmabuf_priv := b.priv, dev := dev },
                 { b with attachments :=
                     { dmabuf_priv := b.priv, dev := dev } :: b.attachments }))
    ∧ (b.ops.attach = none →
        dma_buf_attach (some b) dev true
          = .ok ({ dmabuf_priv := b.priv, dev := dev },
                 { b with attachments :=
                     { dmabuf_priv := b.priv, dev := dev } :: b.attachments })) := by
  refine ⟨?_, ?_, ?_⟩
  · intro hhook hret
    simp [dma_buf_attach, hdev, hhook, hret]
  · intro hhook
    simp [dma_buf_attach, hdev, hhook]
  · intro hhook
    simp [dma_buf_attach, hdev, hhook]

/-- An operation table whose attach hook is present and fails with -EIO. -/
def failAttachOps : DmaBufOps :=
  { fullOps with attach := some (-5) }

/-- Witness for C7: the hook-failure and hook-success cases on concrete
buffers. -/
theorem dma_buf_attach_correct_witness :
    dma_buf_attach (some { sampleBuf with ops := failAttachOps }) 3 true
        = .error (-5)
      ∧ dma_buf_attach (some sampleBuf) 3 true
        = .ok ({ dmabuf_priv := 5, dev := 3 },
               { sampleBuf with attachments := [{ dmabuf_priv := 5, dev := 3 }] }) :=
  ⟨(dma_buf_attach_correct { sampleBuf with ops := failAttachOps } 3 (-5)
      (by decide)).1 rfl (by decide),
   (dma_buf_attach_correct sampleBuf 3 0 (by decide)).2.1 rfl⟩

/-- `dma_buf_get_info` (dma-buf.c:70-77): the info block reported to user
space for a buffer. -/
structure DmaBufInfo where
  fence_supported : Nat
  size : Nat
deriving DecidableEq

/-- `dma_buf_get_info` (dma-buf.c:70-77): unconditionally reports
`fence_supported = 0` and the buffer's size, returning 0. -/
def dma_buf_get_info (b : DmaBuf) (info : DmaBufInfo) : Int × DmaBufInfo :=
  (0, { info with fence_supported := 0, size := b.size })

/-- `dma_buf_get_fence` (dma-buf.c:79-117).  The dmabuf-sync module is not
among the source files; its outcomes enter as parameters, modelled from the
spec: `initRes` is the context `dmabuf_sync_init` produces (`none` on
failure; a valid kernel pointer is nonzero), `getRes` and `lockRes` are the
`dmabuf_sync_get` / `dmabuf_sync_lock` return codes.  On the init-failure
path the C function returns the uninitialized local `ret`, modelled by the
`uninitRet` parameter.  The result pairs the return code with the fence
context stored back into the request. -/
def dma_buf_get_fence (df_ctx : Nat) (initRes : Option Nat)
    (getRes lockRes uninitRet : Int) : Int × Nat :=
  if df_ctx ≠ 0 then (-EBUSY, df_ctx)
  else
    match initRes with
    | none => (uninitRet, 0)
    | some sync =>
      if getRes < 0 then (getRes, 0)
      else if lockRes < 0 then (lockRes, 0)
      else (0, sync)

/-- `dma_buf_put_fence` (dma-buf.c:119-142).  `unlockRes` is the
`dmabuf_sync_unlock` return code (dmabuf-sync is not among the source
files).  The result carries the return code, the context stored back into
the request, and whether the bound context was torn down
(`dmabuf_sync_put` + `dmabuf_sync_fini`). -/
def dma_buf_put_fence (df_ctx : Nat) (unlockRes : Int) : Int × Nat × Bool :=
  if df_ctx = 0 then (-EFAULT, df_ctx, false)
  else if unlockRes ≠ 0 then (unlockRes, df_ctx, false)
  else (0, 0, true)

/-- The ioctl commands `dma_buf_ioctl` recognizes. -/
inductive IoctlCmd where
  | getInfo
  | getFence
  | putFence
  | other
deriving DecidableEq

/-- `dma_buf_ioctl` (dma-buf.c:144-230) with the user copies assumed to
succeed (a valid user pointer).  `buf = none` models a NULL
`filp->private_data`.  The result carries the return code, the user-visible
info block and fence context after the call (copied back only on a
non-negative return code, as in the C), and whether a fence context was torn
down. -/
def dma_buf_ioctl (buf : Option DmaBuf) (cmd : IoctlCmd)
    (argInfo : DmaBufInfo) (argCtx : Nat) (initRes : Option Nat)
    (getRes lockRes uninitRet unlockRes : Int) :
    Int × DmaBufInfo × Nat × Bool :=
  match buf with
  | none => (-EFAULT, argInfo, argCtx, false)
  | some b =>
    match cmd with
    | .getInfo =>
      let r := dma_buf_get_info b argInfo
      if r.1 < 0 then (r.1, argInfo, argCtx, false)
      else (r.1, r.2, argCtx, false)
    | .getFence =>
      if b.sync = none then (-EPERM, argInfo, argCtx, false)
      else
        let r := dma_buf_get_fence argCtx initRes getRes lockRes uninitRet
        if r.1 < 0 then (r.1, argInfo, argCtx, false)
        else (r.1, argInfo, r.2, false)
    | .putFence =>
      if b.sync = none then (-EPERM, argInfo, argCtx, false)
      else
        let r := dma_buf_put_fence argCtx unlockRes
        if r.1 < 0 then (r.1, argInfo, argCtx, r.2.2)
        else (r.1, argInfo, r.2.1, r.2.2)
    | .other => (-EINVAL, argInfo, argCtx, false)

/-- Claim C8: `GetFence` fails with Busy when the request's fence context is
already nonzero, and with PermissionDenied when the buffer has no sync
state; on success it stores the new nonzero context in the request.
`PutFence` fails with Fault when the request's context is zero, propagates a
failing unlock verbatim without tearing anything down, and on success
unlocks, tears down the bound context and clears the request's context to
zero. -/
theorem dma_buf_fence_correct (b : DmaBuf) (ctx sync : Nat)
    (getRes lockRes uninitRet unlockRes : Int) (info : DmaBufInfo)
    (initRes : Option Nat) (hsync : sync ≠ 0) :
    (ctx ≠ 0 →
      dma_buf_get_fence ctx initRes getRes lockRes uninitRet = (-EBUSY, ctx))
    ∧ (b.sync = none →
        dma_buf_ioctl (some b) .getFence info ctx initRes getRes lockRes
            uninitRet unlockRes
          = (-EPERM, info, ctx, false))
    ∧ (b.sync = none →
        dma_buf_ioctl (some b) .putFence info ctx initRes getRes lockRes
            uninitRet unlockRes
          = (-EPERM, info, ctx, false))
    ∧ (getRes = 0 → lockRes = 0 →
        dma_buf_get_fence 0 (some sync) getRes lockRes uninitRet = (0, sync)
          ∧ sync ≠ 0)
    ∧ (dma_buf_put_fence 0 unlockRes = (-EFAULT, 0, false))
    ∧ (ctx ≠ 0 → unlockRes ≠ 0 →
        dma_buf_put_fence ctx unlockRes = (unlockRes, ctx, false))
    ∧ (ctx ≠ 0 →
        dma_buf_put_fence ctx 0 = (0, 0, true)) := by
  refine ⟨?_, ?_, ?_, ?_, ?_, ?_, ?_⟩
  · intro hc; simp [dma_buf_get_fence, hc]
  · intro hs; simp [dma_buf_ioctl, hs]
  · intro hs; simp [dma_buf_ioctl, hs]
  · intro hg hl
    refine ⟨?_, hsync⟩
    simp [dma_buf_get_fence, hg, hl]
  · simp [dma_buf_put_fence]
  · intro hc hu; simp [dma_buf_put_fence, hc, hu]
  · intro hc; simp [dma_buf_put_fence, hc]

/-- Witness for C8: the fence-control paths at concrete inputs. -/
theorem dma_buf_fence_correct_witness :
    dma_buf_get_fence 4 (some 8) 0 0 0 = (-EBUSY, 4)
      ∧ dma_buf_get_fence 0 (some 8) 0 0 0 = (0, 8)
      ∧ dma_buf_put_fence 8 0 = (0, 0, true)
      ∧ dma_buf_ioctl (some { sampleBuf with sync := none }) .getFence
          { fence_supported := 0, size := 0 } 0 (some 8) 0 0 0 0
        = (-EPERM, { fence_supported := 0, size := 0 }, 0, false) :=
  ⟨(dma_buf_fence_correct sampleBuf 4 8 0 0 0 0
      { fence_supported := 0, size := 0 } (some 8) (by decide)).1 (by decide),
   ((dma_buf_fence_correct sampleBuf 4 8 0 0 0 0
      { fence_supported := 0, size := 0 } (some 8) (by decide)).2.2.2.1
      rfl rfl).1,
   (dma_buf_fence_correct sampleBuf 8 8 0 0 0 0
      { fence_supported := 0, size := 0 } (some 8) (by decide)).2.2.2.2.2.2
      (by decide),
   (dma_buf_fence_correct { sampleBuf with sync := none } 0 8 0 0 0 0
      { fence_supported := 0, size := 0 } (some 8) (by decide)).2.1 rfl⟩

/-- Claim C10 (implicit): once the handle is recognized as a buffer,
`GetInfo` always succeeds and always reports `fence_supported = 0` together
with the buffer's size — also for buffers whose sync state is present. -/
theorem dma_buf_get_info_correct (b : DmaBuf) (info : DmaBufInfo) (ctx : Nat)
    (initRes : Option Nat) (getRes lockRes uninitRet unlockRes : Int) :
    dma_buf_get_info b info = (0, { fence_supported := 0, size := b.size })
      ∧ dma_buf_ioctl (some b) .getInfo info ctx initRes getRes lockRes
          uninitRet unlockRes
        = (0, { fence_supported := 0, size := b.size }, ctx, false) := by
  constructor
  · rfl
  · simp [dma_buf_ioctl, dma_buf_get_info]

/-- POSIX advisory-lock constants (include/uapi/asm-generic/fcntl.h, used
on ARM): `F_RDLCK = 0`, `F_WRLCK = 1`, `F_UNLCK = 2`; `FL_SLEEP = 128`
(include/linux/fs.h). -/
def F_RDLCK : Nat := 0

def F_WRLCK : Nat := 1

def F_UNLCK : Nat := 2

def FL_SLEEP : Nat := 128

/-- Access type passed to `dmabuf_sync_single_lock`:
`DMA_BUF_ACCESS_R` / `DMA_BUF_ACCESS_W`. -/
inductive AccessType where
  | read
  | write
deriving DecidableEq

/-- What a `dma_buf_lock` call does: invoke `dmabuf_sync_single_unlock` and
return 0, invoke `dmabuf_sync_single_lock` with the given access type and
wait flag (returning its result), or fail with `-EINVAL`. -/
inductive LockCall where
  | unlocked
  | locked (t : AccessType) (wait : Bool)
  | einval
deriving DecidableEq

/-- `dma_buf_lock` (dma-buf.c:278-308): translates an advisory-lock request
(`fl_type`, `fl_flags`) into sync-layer calls.  Note that the read-lock test
is `(fl_type & F_RDLCK) == F_RDLCK` with `F_RDLCK = 0`, which always holds,
so the final `-EINVAL` branch is unreachable. -/
def dma_buf_lock (fl_type fl_flags : Nat) : LockCall :=
  if fl_type &&& F_UNLCK = F_UNLCK then .unlocked
  else if fl_type &&& F_WRLCK = F_WRLCK then
    .locked .write (fl_flags &&& FL_SLEEP ≠ 0)
  else if fl_type &&& F_RDLCK = F_RDLCK then
    .locked .read (fl_flags &&& FL_SLEEP ≠ 0)
  else .einval

/-- Counterexample to claim C9: the request `fl_type = 4` is neither an
unlock, a write-lock, nor a read-lock request (its type differs from
`F_UNLCK`, `F_WRLCK` and `F_RDLCK`), yet `dma_buf_lock` does not fail with
InvalidArgument — it invokes Lock with Read access, because the read-lock
mask test against `F_RDLCK = 0` always passes. -/
theorem dma_buf_lock_einval_unreachable :
    (4 ≠ F_UNLCK ∧ 4 ≠ F_WRLCK ∧ 4 ≠ F_RDLCK)
      ∧ dma_buf_lock 4 0 = .locked .read false
      ∧ dma_buf_lock 4 0 ≠ .einval := by
  decide

/-- Claim C9 (amended): an unlock request invokes `Unlock` and returns
success; otherwise a request with the write-lock bit set invokes `Lock`
with Write access, and every other request invokes `Lock` with Read access
(the InvalidArgument branch is unreachable since the read-lock test against
`F_RDLCK = 0` always passes); in both lock cases the wait argument is true
exactly when the request carries the sleep flag. -/
theorem dma_buf_lock_correct (fl_type fl_flags : Nat) :
    (fl_type &&& F_UNLCK = F_UNLCK → dma_buf_lock fl_type fl_flags = .unlocked)
    ∧ (fl_type &&& F_UNLCK ≠ F_UNLCK → fl_type &&& F_WRLCK = F_WRLCK →
        dma_buf_lock fl_type fl_flags
          = .locked .write (fl_flags &&& FL_SLEEP ≠ 0))
    ∧ (fl_type &&& F_UNLCK ≠ F_UNLCK → fl_type &&& F_WRLCK ≠ F_WRLCK →
        dma_buf_lock fl_type fl_flags
          = .locked .read (fl_flags &&& FL_SLEEP ≠ 0))
    ∧ dma_buf_lock fl_type fl_flags ≠ .einval := by
  refine ⟨?_, ?_, ?_, ?_⟩
  · intro hu; simp [dma_buf_lock, hu]
  · intro hu hw; simp [dma_buf_lock, hu, hw]
  · intro hu hw; simp [dma_buf_lock, hu, hw, F_RDLCK]
  · by_cases hu : fl_type &&& F_UNLCK = F_UNLCK
    · simp [dma_buf_lock, hu]
    · by_cases hw : fl_type &&& F_WRLCK = F_WRLCK
      · simp [dma_buf_lock, hu, hw]
      · simp [dma_buf_lock, hu, hw, F_RDLCK]

/-- Witness for C9 (amended): the three dispatch outcomes at concrete
requests — unlock, write lock with sleep, and the always-read fallback. -/
theorem dma_buf_lock_correct_witness :
    dma_buf_lock 2 0 = .unlocked
      ∧ dma_buf_lock 1 128 = .locked .write true
      ∧ dma_buf_lock 0 0 = .locked .read false :=
  ⟨(dma_buf_lock_correct 2 0).1 (by decide),
   (dma_buf_lock_correct 1 128).2.1 (by decide) (by decide),
   (dma_buf_lock_correct 0 0).2.2.1 (by decide) (by decide)⟩

end DmabufModel
